import Mathlib

/-!
Shallow embedding of the employee/department/project/time-tracking system
(`src/models/empleado.py`, `src/models/departamento.py`,
`src/models/proyecto.py`, `src/models/registro_tiempo.py`,
`src/seguridad.py`) and verification of its specification claims.

Modelling conventions:
* a Python `str` is a `List Char`; `str.strip()` is `pyStrip`; the
  whitespace class is modelled by `Char.isWhitespace`;
* Python numeric values (`int`/`float`) are `ℚ` (exact numerics; the
  degenerate IEEE values NaN/inf are outside the model);
* a date is an `ℤ` ordinal (only equality/order on dates matters here);
* a raised `ValueError` (the specification's `ValidationError`) is `none`
  in an `Option` result;
* short identifier-like strings that are only ever compared for equality
  (roles, action tags, usernames, password digests) are Lean `String`s.
-/

namespace SistemaEmpleados

/-- Python `str.strip()`: drop leading and trailing whitespace. -/
def pyStrip (s : List Char) : List Char :=
  ((s.dropWhile Char.isWhitespace).reverse.dropWhile Char.isWhitespace).reverse

/-! ## Entity: Empleado (src/models/empleado.py) -/

structure Empleado where
  rut : List Char
  nombre : List Char
  apellido : List Char
  cargo : List Char
  salario : ℚ
  id_departamento : Option Nat
deriving DecidableEq

/-- `Empleado.__init__` (src/models/empleado.py, lines 12-18): every field
is assigned directly to the backing attribute; no validation runs. -/
def Empleado.init (rut nombre apellido cargo : List Char) (salario : ℚ)
    (id_departamento : Option Nat) : Empleado :=
  ⟨rut, nombre, apellido, cargo, salario, id_departamento⟩

/-- `Empleado.nombre` setter: raises on empty/whitespace-only, stores the
trimmed string. -/
def Empleado.setNombre (e : Empleado) (value : List Char) : Option Empleado :=
  if value = [] ∨ (pyStrip value).length = 0 then none
  else some { e with nombre := pyStrip value }

/-- `Empleado.apellido` setter. -/
def Empleado.setApellido (e : Empleado) (value : List Char) : Option Empleado :=
  if value = [] ∨ (pyStrip value).length = 0 then none
  else some { e with apellido := pyStrip value }

/-- `Empleado.cargo` setter. -/
def Empleado.setCargo (e : Empleado) (value : List Char) : Option Empleado :=
  if value = [] ∨ (pyStrip value).length = 0 then none
  else some { e with cargo := pyStrip value }

/-- `Empleado.salario` setter: `if value < 0: raise ValueError`. -/
def Empleado.setSalario (e : Empleado) (value : ℚ) : Option Empleado :=
  if value < 0 then none
  else some { e with salario := value }

/-! ## Entity: Departamento (src/models/departamento.py) -/

structure Departamento where
  id_depto : Option Nat
  nombre : List Char
  gerente : List Char
  descripcion : Option (List Char)
deriving DecidableEq

/-- `Departamento.nombre` setter. -/
def Departamento.setNombre (d : Departamento) (value : List Char) :
    Option Departamento :=
  if value = [] ∨ (pyStrip value).length = 0 then none
  else some { d with nombre := pyStrip value }

/-- `Departamento.gerente` setter. -/
def Departamento.setGerente (d : Departamento) (value : List Char) :
    Option Departamento :=
  if value = [] ∨ (pyStrip value).length = 0 then none
  else some { d with gerente := pyStrip value }

/-! ## Entity: Proyecto (src/models/proyecto.py) -/

/-- The three admissible project states (src/models/proyecto.py, line 88). -/
def estados_validos : List String := ["Activo", "Pausado", "Finalizado"]

structure Proyecto where
  id_proyecto : Option Nat
  nombre : List Char
  descripcion : List Char
  fecha_inicio : ℤ
  estado : String
deriving DecidableEq

/-- `Proyecto.__init__` (src/models/proyecto.py, lines 16-32): direct
assignment of every field (`descripcion or ""` maps a missing description
to the empty string); no validation runs, in particular `estado` is stored
unchecked. -/
def Proyecto.init (nombre : List Char) (descripcion : Option (List Char))
    (fecha_inicio : ℤ) (estado : String) (id_proyecto : Option Nat) :
    Proyecto :=
  ⟨id_proyecto, nombre, descripcion.getD [], fecha_inicio, estado⟩

/-- `Proyecto.nombre` setter (the `isinstance(valor, str)` test always
holds for a `List Char` input). -/
def Proyecto.setNombre (p : Proyecto) (valor : List Char) : Option Proyecto :=
  if valor = [] ∨ (pyStrip valor).length = 0 then none
  else some { p with nombre := pyStrip valor }

/-- `Proyecto.estado` setter: `if valor not in estados_validos: raise`. -/
def Proyecto.setEstado (p : Proyecto) (valor : String) : Option Proyecto :=
  if valor ∉ estados_validos then none
  else some { p with estado := valor }

/-! ## Entity: RegistroTiempo (src/models/registro_tiempo.py) -/

structure RegistroTiempo where
  id_registro : Option Nat
  empleado_rut : List Char
  fecha_registro : ℤ
  horas : ℚ
  proyecto : List Char
  descripcion : List Char
deriving DecidableEq

/-- `RegistroTiempo.__init__` (src/models/registro_tiempo.py, lines 15-33):
direct assignment, no validation. -/
def RegistroTiempo.init (empleado_rut : List Char) (fecha_registro : ℤ)
    (horas : ℚ) (proyecto : List Char) (descripcion : Option (List Char))
    (id_registro : Option Nat) : RegistroTiempo :=
  ⟨id_registro, empleado_rut, fecha_registro, horas, proyecto,
    descripcion.getD []⟩

/-- A Python value passed to `float(...)`: a numeric value, a string that
parses as a number, or a value on which `float` raises. -/
inductive PyValue where
  | num (q : ℚ)
  | strNum (q : ℚ)
  | notNumeric
deriving DecidableEq

/-- Python `float(...)` conversion on a `PyValue`. -/
def pyFloat : PyValue → Option ℚ
  | .num q => some q
  | .strNum q => some q
  | .notNumeric => none

/-- `RegistroTiempo.horas` setter (src/models/registro_tiempo.py, lines
74-86): `float(valor)` then the range test `horas_float <= 0 or
horas_float > 24`; every failure path raises `ValueError`. -/
def RegistroTiempo.setHoras (r : RegistroTiempo) (valor : PyValue) :
    Option RegistroTiempo :=
  match pyFloat valor with
  | none => none
  | some horas_float =>
    if horas_float ≤ 0 ∨ 24 < horas_float then none
    else some { r with horas := horas_float }

/-- `RegistroTiempo.proyecto` setter (src/models/registro_tiempo.py, lines
93-98). -/
def RegistroTiempo.setProyecto (r : RegistroTiempo) (valor : List Char) :
    Option RegistroTiempo :=
  if valor = [] ∨ (pyStrip valor).length = 0 then none
  else some { r with proyecto := pyStrip valor }

/-! ## Authorization policy (src/seguridad.py, Autenticacion.tiene_permiso) -/

/-- The literal role-to-permitted-actions dictionary of
`Autenticacion.tiene_permiso` (src/seguridad.py, lines 215-236). -/
def permisos : List (String × List String) :=
  [("admin",
    ["crear_empleado", "buscar_empleado", "listar_empleados",
     "actualizar_empleado", "eliminar_empleado",
     "crear_departamento", "actualizar_departamento",
     "eliminar_departamento",
     "crear_proyecto", "actualizar_proyecto", "eliminar_proyecto",
     "asignar_empleado_proyecto", "desasignar_empleado_proyecto",
     "registrar_tiempo", "actualizar_registro", "eliminar_registro",
     "generar_informes", "cambiar_contraseña", "ver_informes"]),
   ("supervisor",
    ["buscar_empleado", "listar_empleados",
     "registrar_tiempo", "actualizar_registro",
     "ver_proyectos", "listar_proyectos",
     "cambiar_contraseña", "ver_informes"]),
   ("empleado",
    ["buscar_empleado", "listar_empleados",
     "registrar_tiempo", "ver_proyectos",
     "cambiar_contraseña"])]

/-- `Autenticacion.tiene_permiso(rol, accion)`:
`accion in permisos.get(rol, [])` (src/seguridad.py, line 238). -/
def tiene_permiso (rol accion : String) : Bool :=
  decide (accion ∈ (permisos.lookup rol).getD [])

/-- An authenticated identity, as returned by
`Autenticacion.validar_credenciales`. -/
structure Usuario where
  id_usuario : Nat
  nombre_usuario : String
  rol : String
  email : Option String
deriving DecidableEq

/-- `ControlAcceso` (src/seguridad.py, lines 349-359): holds the currently
authenticated user, or `none`. -/
structure ControlAcceso where
  usuario_actual : Option Usuario
deriving DecidableEq

/-- `ControlAcceso.verificar_permiso` (src/seguridad.py, lines 361-380):
returns `False` when no user is authenticated, otherwise consults
`tiene_permiso` on the current user's role. -/
def ControlAcceso.verificar_permiso (ca : ControlAcceso) (accion : String) :
    Bool :=
  match ca.usuario_actual with
  | none => false
  | some u => tiene_permiso u.rol accion

/-! ## Credential store (src/seguridad.py, Autenticacion) -/

/-- One row of the `usuarios` table (src/database/conexion.py,
`create_table_usuarios`). -/
structure UsuarioRow where
  id_usuario : Nat
  nombre_usuario : String
  contrasena_hash : String
  rol : String
  email : Option String
  activo : Bool
  ultimo_login : Option ℤ
  intentos_fallidos : Nat
deriving DecidableEq

/-- `Autenticacion.validar_credenciales` (src/seguridad.py, lines 96-152),
parameterised by the hash function `H` (the external `hashlib.sha256`
digest) and the current time `now` (`SYSDATE`).  The `SELECT ... WHERE
nombre_usuario = :usuario AND contrasena_hash = :hash AND activo = 1`
returns the first matching row; on a match the row with that id gets
`ultimo_login = SYSDATE, intentos_fallidos = 0` and the identity is
returned; otherwise every row with that username gets
`intentos_fallidos + 1` and `none` is returned. -/
def validar_credenciales (H : String → String) (now : ℤ)
    (usuarios : List UsuarioRow) (nombre_usuario contrasena : String) :
    Option Usuario × List UsuarioRow :=
  match usuarios.find? (fun u =>
      u.nombre_usuario == nombre_usuario &&
      u.contrasena_hash == H contrasena && u.activo) with
  | some row =>
    (some ⟨row.id_usuario, row.nombre_usuario, row.rol, row.email⟩,
     usuarios.map (fun u =>
       if u.id_usuario == row.id_usuario then
         { u with ultimo_login := some now, intentos_fallidos := 0 }
       else u))
  | none =>
    (none,
     usuarios.map (fun u =>
       if u.nombre_usuario == nombre_usuario then
         { u with intentos_fallidos := u.intentos_fallidos + 1 }
       else u))

/-- `Autenticacion.crear_usuario_admin_inicial` (src/seguridad.py, lines
72-94): if the user table is empty, inserts the default administrator row
(username `admin`, digest of `admin123`, role `admin`, active). -/
def crear_usuario_admin_inicial (H : String → String)
    (usuarios : List UsuarioRow) : List UsuarioRow :=
  if usuarios.length = 0 then
    [⟨1, "admin", H "admin123", "admin", some "admin@empresa.com", true,
      none, 0⟩]
  else usuarios

/-! ## Persistence layer: table rows and repository operations -/

/-- One row of the `empleados` table (src/database/conexion.py,
`create_table_empleados`). -/
structure EmpleadoRow where
  rut : String
  nombre : String
  apellido : String
  cargo : String
  salario : ℚ
  id_departamento : Option Nat
deriving DecidableEq

/-- One row of the `departamentos` table. -/
structure DepartamentoRow where
  id_depto : Nat
  nombre : String
  gerente : String
  descripcion : Option String
deriving DecidableEq

/-- One row of the `proyectos` table. -/
structure ProyectoRow where
  id_proyecto : Nat
  nombre : String
  descripcion : String
  fecha_inicio : ℤ
  estado : String
deriving DecidableEq

/-- One row of the `registros_tiempo` table. -/
structure RegistroRow where
  id_registro : Nat
  empleado_rut : String
  fecha_registro : ℤ
  horas : ℚ
  proyecto : String
  descripcion : String
deriving DecidableEq

/-- The database state read and written by the project repository: the
`empleados`, `proyectos` and `empleado_proyecto` tables.  An
`empleado_proyecto` row is modelled by its (empleado_rut, id_proyecto)
pair; the auto-generated surrogate `id_asignacion` and the
`fecha_asignacion` column are never read by any modelled operation and are
omitted. -/
structure BD where
  empleados : List EmpleadoRow
  proyectos : List ProyectoRow
  asignaciones : List (String × Nat)
deriving DecidableEq

/-- `Proyecto.asignar_empleado` (src/models/proyecto.py, lines 335-377):
checks that the employee row exists, then that the project row exists,
then inserts; on a duplicate pair the UNIQUE (empleado_rut, id_proyecto)
constraint raises a caught DatabaseError, so the function returns `false`
with nothing committed. -/
def asignar_empleado (empleado_rut : String) (id_proyecto : Nat) (bd : BD) :
    Bool × BD :=
  if (bd.empleados.find? (fun e => e.rut == empleado_rut)).isNone then
    (false, bd)
  else if (bd.proyectos.find? (fun p =>
      p.id_proyecto == id_proyecto)).isNone then
    (false, bd)
  else if (empleado_rut, id_proyecto) ∈ bd.asignaciones then
    (false, bd)
  else
    (true, { bd with
      asignaciones := bd.asignaciones ++ [(empleado_rut, id_proyecto)] })

/-- `Proyecto.desasignar_empleado` (src/models/proyecto.py, lines 379-408):
a bare `DELETE ... WHERE empleado_rut = :rut AND id_proyecto = :id`
followed by a rowcount test — no existence check of either referenced
entity; `rowcount == 0` returns `false` with nothing committed. -/
def desasignar_empleado (empleado_rut : String) (id_proyecto : Nat)
    (bd : BD) : Bool × BD :=
  if (bd.asignaciones.filter (fun a => !(a.1 == empleado_rut && a.2 == id_proyecto))).length = bd.asignaciones.length then
    (false, bd)
  else
    (true, { bd with asignaciones := bd.asignaciones.filter (fun a => !(a.1 == empleado_rut && a.2 == id_proyecto)) })

/-- `Proyecto.eliminar` (src/models/proyecto.py, lines 302-333): on one
connection, first `DELETE FROM empleado_proyecto WHERE id_proyecto = :id`,
then `DELETE FROM proyectos WHERE id_proyecto = :id`; if the second delete
affects zero rows the function returns `false` without committing, the
connection closes and both deletes roll back; otherwise both deletes are
committed together. -/
def Proyecto.eliminar (id_proyecto : Nat) (bd : BD) : Bool × BD :=
  if (bd.proyectos.filter (fun p => !(p.id_proyecto == id_proyecto))).length = bd.proyectos.length then
    (false, bd)
  else
    (true, { bd with
             proyectos := bd.proyectos.filter (fun p => !(p.id_proyecto == id_proyecto)),
             asignaciones := bd.asignaciones.filter (fun a => !(a.2 == id_proyecto)) })

/-- `Empleado.listar_todos` (src/models/empleado.py, lines 160-184):
`SELECT * FROM empleados FETCH FIRST {limit} ROWS ONLY`, default
`limit=100`, no ORDER BY; the source wraps each selected row in an
`Empleado` object — the embedding returns the selected rows. -/
def Empleado.listar_todos (limit : Nat) (tabla : List EmpleadoRow) :
    List EmpleadoRow :=
  tabla.take limit

/-- `Departamento.listar_todos` (src/models/departamento.py, lines
138-160): `SELECT ... FETCH FIRST {limit} ROWS ONLY`, default
`limit=100`. -/
def Departamento.listar_todos (limit : Nat) (tabla : List DepartamentoRow) :
    List DepartamentoRow :=
  tabla.take limit

/-- The descending-date order `ORDER BY fecha_inicio DESC` on project
rows. -/
def fechaDescProyecto (a b : ProyectoRow) : Prop :=
  b.fecha_inicio ≤ a.fecha_inicio

instance : DecidableRel fechaDescProyecto := fun a b =>
  inferInstanceAs (Decidable (b.fecha_inicio ≤ a.fecha_inicio))

instance : IsTotal ProyectoRow fechaDescProyecto :=
  ⟨fun a b => le_total b.fecha_inicio a.fecha_inicio⟩

instance : IsTrans ProyectoRow fechaDescProyecto :=
  ⟨fun _ _ _ h1 h2 => le_trans h2 h1⟩

/-- `Proyecto.listar_todos` (src/models/proyecto.py, lines 196-223):
`SELECT ... FROM proyectos ORDER BY fecha_inicio DESC` — no limit; the
whole table is returned in descending date order (the ORDER BY is modelled
by a sort with respect to `fechaDescProyecto`). -/
def Proyecto.listar_todos (tabla : List ProyectoRow) : List ProyectoRow :=
  List.insertionSort fechaDescProyecto tabla

/-- The descending-date order `ORDER BY fecha_registro DESC` on
time-record rows. -/
def fechaDescRegistro (a b : RegistroRow) : Prop :=
  b.fecha_registro ≤ a.fecha_registro

instance : DecidableRel fechaDescRegistro := fun a b =>
  inferInstanceAs (Decidable (b.fecha_registro ≤ a.fecha_registro))

instance : IsTotal RegistroRow fechaDescRegistro :=
  ⟨fun a b => le_total b.fecha_registro a.fecha_registro⟩

instance : IsTrans RegistroRow fechaDescRegistro :=
  ⟨fun _ _ _ h1 h2 => le_trans h2 h1⟩

/-- `RegistroTiempo.listar_todos` (src/models/registro_tiempo.py, lines
258-287): `SELECT ... FROM registros_tiempo ORDER BY fecha_registro DESC`
— no limit. -/
def RegistroTiempo.listar_todos (tabla : List RegistroRow) :
    List RegistroRow :=
  List.insertionSort fechaDescRegistro tabla

/-- A projects table with 101 rows, used to exhibit the unbounded scan of
`Proyecto.listar_todos`. -/
def tabla101 : List ProyectoRow :=
  (List.range 101).map (fun i => ⟨i, toString i, "", 0, "Activo"⟩)

/-! ## Helper lemmas -/

theorem pyStrip_nil : pyStrip [] = [] := rfl

theorem pyStrip_eq_nil_iff (s : List Char) :
    pyStrip s = [] ↔ ∀ c ∈ s, c.isWhitespace := by
  unfold pyStrip
  rw [List.reverse_eq_nil_iff, List.dropWhile_eq_nil_iff]
  constructor
  · intro h c hc
    have hs := List.takeWhile_append_dropWhile Char.isWhitespace s
    rw [← hs] at hc
    rcases List.mem_append.mp hc with htk | hdr
    · exact List.mem_takeWhile_imp htk
    · exact h c (List.mem_reverse.mpr hdr)
  · intro h x hx
    have hs := List.takeWhile_append_dropWhile Char.isWhitespace s
    exact h x (hs ▸ List.mem_append_right _ (List.mem_reverse.mp hx))

/-- The validating condition shared by every required-string setter in the
source (`if not value or len(value.strip()) == 0`) is equivalent to the
trimmed value being empty. -/
theorem strSetter_cond_iff (v : List Char) :
    (v = [] ∨ (pyStrip v).length = 0) ↔ pyStrip v = [] := by
  constructor
  · rintro (rfl | h)
    · rfl
    · exact List.length_eq_zero.mp h
  · intro h
    exact Or.inr (by rw [h]; rfl)

/-- The row predicate of the pairwise DELETE of `desasignar_empleado`
keeps a row exactly when it differs from the targeted pair. -/
theorem pairPred_true_iff {a : String × Nat} {r : String} {i : Nat} :
    ((!(a.1 == r && a.2 == i)) = true) ↔ a ≠ (r, i) := by
  simp [Prod.ext_iff]
  tauto

/-- A guarded setter returns `none` exactly when its guard fires. -/
theorem optIf_none_iff {α : Type} (c : Prop) [Decidable c] (a : α) :
    (if c then none else some a) = none ↔ c := by
  split_ifs with h <;> simp [h]

/-- A guarded setter that succeeds returns exactly its `else` value. -/
theorem optIf_some_eq {α : Type} {c : Prop} [Decidable c] {a e' : α}
    (h : (if c then none else some a) = some e') : e' = a := by
  split_ifs at h
  exact (Option.some.inj h).symm

/-- A guarded setter that succeeds has a false guard. -/
theorem optIf_some_not {α : Type} {c : Prop} [Decidable c] {a e' : α}
    (h : (if c then none else some a) = some e') : ¬ c := by
  intro hc
  rw [if_pos hc] at h
  exact absurd h (by simp)

/-! ## Claim C1 -/

/-- Claim C1 counterexample: construction does not validate.
`Empleado.__init__` accepts a negative salary and the resulting object
holds it; `Proyecto.__init__` accepts a status outside the enumeration and
the resulting object holds it.  So "constructing an entity with an invalid
field value fails with ValidationError" is false. -/
theorem C1_init_no_validation_cex :
    (Empleado.init "11111111-1".toList "Ana".toList "Soto".toList
        "Dev".toList (-1) none).salario < 0 ∧
    (Proyecto.init "Launch".toList none 0 "Cancelado" none).estado ∉
      estados_validos := by
  constructor
  · norm_num [Empleado.init]
  · decide

/-- Claim C1 (amended): each field-level invariant is enforced on the
corresponding mutating setter — the setter fails exactly on the invalid
values and a successful setter leaves the object satisfying the invariant —
but not at construction: `__init__` stores its arguments unvalidated. -/
theorem C1_invariants_on_setters :
    (∀ (e : Empleado) (v : ℚ),
      (e.setSalario v = none ↔ v < 0) ∧
      ∀ e', e.setSalario v = some e' →
        e' = { e with salario := v } ∧ 0 ≤ e'.salario) ∧
    (∀ (p : Proyecto) (v : String),
      (p.setEstado v = none ↔ v ∉ estados_validos) ∧
      ∀ p', p.setEstado v = some p' →
        p' = { p with estado := v } ∧ p'.estado ∈ estados_validos) ∧
    (∀ (r : RegistroTiempo) (v : PyValue),
      (r.setHoras v = none ↔
        pyFloat v = none ∨ ∃ q, pyFloat v = some q ∧ (q ≤ 0 ∨ 24 < q)) ∧
      ∀ r', r.setHoras v = some r' → 0 < r'.horas ∧ r'.horas ≤ 24) ∧
    (∀ (e : Empleado) (v : List Char),
      (e.setNombre v = none ↔ pyStrip v = []) ∧
      ∀ e', e.setNombre v = some e' → e'.nombre ≠ []) ∧
    (∀ (rut nombre apellido cargo : List Char) (salario : ℚ)
        (dep : Option Nat),
      Empleado.init rut nombre apellido cargo salario dep =
        ⟨rut, nombre, apellido, cargo, salario, dep⟩) := by
  refine ⟨?_, ?_, ?_, ?_, fun _ _ _ _ _ _ => rfl⟩
  · intro e v
    refine ⟨optIf_none_iff _ _, fun e' he' => ?_⟩
    have hv : ¬ v < 0 := optIf_some_not he'
    have he := optIf_some_eq he'
    subst he
    exact ⟨rfl, not_lt.mp hv⟩
  · intro p v
    refine ⟨optIf_none_iff _ _, fun p' hp' => ?_⟩
    have hv : ¬ v ∉ estados_validos := optIf_some_not hp'
    have hp := optIf_some_eq hp'
    subst hp
    exact ⟨rfl, not_not.mp hv⟩
  · intro r v
    cases v <;> simp only [RegistroTiempo.setHoras, pyFloat]
    case notNumeric => simp
    all_goals
      rename_i q
      refine ⟨?_, fun r' hr' => ?_⟩
      · rw [optIf_none_iff]
        constructor
        · intro h
          exact Or.inr ⟨q, rfl, h⟩
        · rintro (h | ⟨q', hq', h⟩)
          · exact absurd h (by simp)
          · cases hq'
            exact h
      · have hv : ¬ (q ≤ 0 ∨ 24 < q) := optIf_some_not hr'
        push_neg at hv
        have hr := optIf_some_eq hr'
        subst hr
        exact ⟨lt_of_not_le (not_le.mpr hv.1), hv.2⟩
  · intro e v
    refine ⟨(optIf_none_iff _ _).trans (strSetter_cond_iff v),
      fun e' he' => ?_⟩
    have hv : ¬ (v = [] ∨ (pyStrip v).length = 0) := optIf_some_not he'
    rw [strSetter_cond_iff] at hv
    have he := optIf_some_eq he'
    subst he
    simpa using hv

/-- Claim C1 amended-theorem witness at concrete inputs. -/
theorem C1_invariants_on_setters_witness :
    (⟨"1-9".toList, "A".toList, "B".toList, "C".toList, 0, none⟩ :
        Empleado) =
      { (⟨"1-9".toList, "A".toList, "B".toList, "C".toList, 500, none⟩ :
          Empleado) with salario := 0 } ∧
    (0 : ℚ) ≤
      (⟨"1-9".toList, "A".toList, "B".toList, "C".toList, 0, none⟩ :
        Empleado).salario :=
  (C1_invariants_on_setters.1
    ⟨"1-9".toList, "A".toList, "B".toList, "C".toList, 500, none⟩ 0).2
    _ (by decide)

/-! ## Claim C3 -/

/-- Claim C3: the hours setter fails exactly when the value is not
convertible to a number or the number lies outside `(0, 24]`; on a numeric
value in `(0, 24]` it succeeds and the stored hours equal that number. -/
theorem C3_horas_setter_spec (r : RegistroTiempo) (v : PyValue) :
    ((r.setHoras v).isSome ↔ ∃ q, pyFloat v = some q ∧ 0 < q ∧ q ≤ 24) ∧
    (∀ q, pyFloat v = some q → 0 < q → q ≤ 24 →
      r.setHoras v = some { r with horas := q }) := by
  cases v <;> simp only [RegistroTiempo.setHoras, pyFloat]
  case notNumeric => simp
  all_goals
    rename_i q
    constructor
    · split_ifs with h
      · simp only [Option.isSome_none, Bool.false_eq_true, false_iff]
        rintro ⟨q', hq', h1, h2⟩
        cases hq'
        rcases h with h | h
        · exact absurd h1 (not_lt.mpr h)
        · exact absurd h2 (not_le.mpr h)
      · push_neg at h
        simp only [Option.isSome_some, true_iff]
        exact ⟨q, rfl, lt_of_not_le (not_le.mpr h.1), h.2⟩
    · rintro q' hq' h1 h2
      cases hq'
      rw [if_neg]
      push_neg
      exact ⟨h1, h2⟩

/-- Claim C3 witness: 8 hours is accepted and stored. -/
theorem C3_horas_setter_witness :
    (⟨none, "11111111-1".toList, 0, 0, "Launch".toList, []⟩ :
        RegistroTiempo).setHoras (PyValue.num 8) =
      some { (⟨none, "11111111-1".toList, 0, 0, "Launch".toList, []⟩ :
        RegistroTiempo) with horas := 8 } :=
  (C3_horas_setter_spec _ _).2 8 rfl (by norm_num) (by norm_num)

/-! ## Claim C8 -/

/-- Claim C8: every required string-field setter (employee given name,
family name and job title; department name and manager; project name;
time-record project label) fails exactly when the supplied value is empty
or whitespace-only after trimming, and on success the stored value is the
trimmed string (all other fields unchanged). -/
theorem C8_required_string_setters :
    (∀ v : List Char, pyStrip v = [] ↔ ∀ c ∈ v, c.isWhitespace) ∧
    (∀ (e : Empleado) (v : List Char),
      (e.setNombre v = none ↔ pyStrip v = []) ∧
      ∀ e', e.setNombre v = some e' → e' = { e with nombre := pyStrip v }) ∧
    (∀ (e : Empleado) (v : List Char),
      (e.setApellido v = none ↔ pyStrip v = []) ∧
      ∀ e', e.setApellido v = some e' →
        e' = { e with apellido := pyStrip v }) ∧
    (∀ (e : Empleado) (v : List Char),
      (e.setCargo v = none ↔ pyStrip v = []) ∧
      ∀ e', e.setCargo v = some e' → e' = { e with cargo := pyStrip v }) ∧
    (∀ (d : Departamento) (v : List Char),
      (d.setNombre v = none ↔ pyStrip v = []) ∧
      ∀ d', d.setNombre v = some d' → d' = { d with nombre := pyStrip v }) ∧
    (∀ (d : Departamento) (v : List Char),
      (d.setGerente v = none ↔ pyStrip v = []) ∧
      ∀ d', d.setGerente v = some d' →
        d' = { d with gerente := pyStrip v }) ∧
    (∀ (p : Proyecto) (v : List Char),
      (p.setNombre v = none ↔ pyStrip v = []) ∧
      ∀ p', p.setNombre v = some p' → p' = { p with nombre := pyStrip v }) ∧
    (∀ (r : RegistroTiempo) (v : List Char),
      (r.setProyecto v = none ↔ pyStrip v = []) ∧
      ∀ r', r.setProyecto v = some r' →
        r' = { r with proyecto := pyStrip v }) := by
  refine ⟨pyStrip_eq_nil_iff, ?_, ?_, ?_, ?_, ?_, ?_, ?_⟩ <;>
    exact fun x v =>
      ⟨(optIf_none_iff _ _).trans (strSetter_cond_iff v),
        fun y hy => optIf_some_eq hy⟩

/-- Claim C8 witness: a padded name is trimmed and stored. -/
theorem C8_required_string_setters_witness :
    (⟨"1-9".toList, "Ana".toList, "B".toList, "C".toList, 0, none⟩ :
        Empleado) =
      { (⟨"1-9".toList, "A".toList, "B".toList, "C".toList, 0, none⟩ :
          Empleado) with nombre := pyStrip "  Ana  ".toList } :=
  (C8_required_string_setters.2.1
    ⟨"1-9".toList, "A".toList, "B".toList, "C".toList, 0, none⟩
    "  Ana  ".toList).2 _ (by decide)

/-! ## Claim C4 -/

/-- Claim C4: `tiene_permiso` is deny-by-default — an absent role or an
action absent from the role's permitted set yields `false`; in particular
an unknown role yields `false` for every action, role `empleado` may not
`eliminar_empleado`, and role `admin` may. -/
theorem C4_tiene_permiso_deny_by_default :
    (∀ rol accion : String, rol ≠ "admin" → rol ≠ "supervisor" →
      rol ≠ "empleado" → tiene_permiso rol accion = false) ∧
    (∀ rol accion : String, accion ∉ (permisos.lookup rol).getD [] →
      tiene_permiso rol accion = false) ∧
    tiene_permiso "empleado" "eliminar_empleado" = false ∧
    tiene_permiso "admin" "eliminar_empleado" = true := by
  refine ⟨?_, ?_, by decide, by decide⟩
  · intro rol accion h1 h2 h3
    have e1 : (rol == "admin") = false := beq_eq_false_iff_ne.mpr h1
    have e2 : (rol == "supervisor") = false := beq_eq_false_iff_ne.mpr h2
    have e3 : (rol == "empleado") = false := beq_eq_false_iff_ne.mpr h3
    simp [tiene_permiso, permisos, List.lookup, e1, e2, e3]
  · intro rol accion h
    exact decide_eq_false h

/-- Claim C4 witness: an unknown role is denied a concrete action. -/
theorem C4_tiene_permiso_deny_by_default_witness :
    tiene_permiso "gerente" "eliminar_empleado" = false :=
  C4_tiene_permiso_deny_by_default.1 "gerente" "eliminar_empleado"
    (by decide) (by decide) (by decide)

/-! ## Claim C9 -/

/-- Claim C9: with no authenticated user, `verificar_permiso` returns
`false` for every action (and, being a total function, never raises). -/
theorem C9_unauthenticated_denies_all (accion : String) :
    ControlAcceso.verificar_permiso ⟨none⟩ accion = false := rfl

/-! ## Claim C10 -/

/-- Claim C10: every action granted to role `empleado` is also granted to
role `supervisor`. -/
theorem C10_empleado_subset_supervisor (accion : String)
    (h : tiene_permiso "empleado" accion = true) :
    tiene_permiso "supervisor" accion = true := by
  have h' : accion ∈ ["buscar_empleado", "listar_empleados",
      "registrar_tiempo", "ver_proyectos", "cambiar_contraseña"] := by
    simpa [tiene_permiso, permisos, List.lookup] using h
  fin_cases h' <;> decide

/-- Claim C10 witness at a concrete action. -/
theorem C10_empleado_subset_supervisor_witness :
    tiene_permiso "supervisor" "registrar_tiempo" = true :=
  C10_empleado_subset_supervisor "registrar_tiempo" (by decide)

/-! ## Claim C2 -/

/-- Claim C2: `validar_credenciales` returns an identity exactly when an
active row with that username and that password digest exists; on success
it returns that row's (id, username, role, email), resets that row's
failed-attempt counter to zero and stamps last-login, leaving all other
rows unchanged; on failure it returns `none` and increments the
failed-attempt counter of precisely the rows with that username, and if no
row carries that username the table is unchanged. -/
theorem C2_validar_credenciales_spec (H : String → String) (now : ℤ)
    (usuarios : List UsuarioRow) (u p : String) :
    ((validar_credenciales H now usuarios u p).1.isSome ↔
      ∃ row ∈ usuarios, row.nombre_usuario = u ∧
        row.contrasena_hash = H p ∧ row.activo = true) ∧
    (∀ ident, (validar_credenciales H now usuarios u p).1 = some ident →
      ∃ row ∈ usuarios, row.nombre_usuario = u ∧
        row.contrasena_hash = H p ∧ row.activo = true ∧
        ident = ⟨row.id_usuario, row.nombre_usuario, row.rol, row.email⟩ ∧
        (validar_credenciales H now usuarios u p).2 =
          usuarios.map (fun q' =>
            if q'.id_usuario = row.id_usuario then
              { q' with ultimo_login := some now, intentos_fallidos := 0 }
            else q')) ∧
    ((validar_credenciales H now usuarios u p).1 = none →
      (validar_credenciales H now usuarios u p).2 =
        usuarios.map (fun q' =>
          if q'.nombre_usuario = u then
            { q' with intentos_fallidos := q'.intentos_fallidos + 1 }
          else q')) ∧
    ((validar_credenciales H now usuarios u p).1 = none →
      (∀ row ∈ usuarios, row.nombre_usuario ≠ u) →
      (validar_credenciales H now usuarios u p).2 = usuarios) := by
  unfold validar_credenciales
  split
  next row hfind =>
    have hp := List.find?_some hfind
    have hmem := List.mem_of_find?_eq_some hfind
    simp only [Bool.and_eq_true, beq_iff_eq] at hp
    obtain ⟨⟨h1, h2⟩, h3⟩ := hp
    refine ⟨?_, ?_, ?_, ?_⟩
    · simp only [Option.isSome_some, true_iff]
      exact ⟨row, hmem, h1, h2, h3⟩
    · intro ident hid
      have hid' := Option.some.inj hid
      subst hid'
      refine ⟨row, hmem, h1, h2, h3, rfl, ?_⟩
      apply List.map_congr_left
      intro a _
      by_cases h : a.id_usuario = row.id_usuario <;> simp [h]
    · intro hid
      simp at hid
    · intro hid
      simp at hid
  next hfind =>
    refine ⟨?_, ?_, ?_, ?_⟩
    · simp only [Option.isSome_none, Bool.false_eq_true, false_iff]
      rintro ⟨row, hrow, h1, h2, h3⟩
      have hne := List.find?_eq_none.mp hfind row hrow
      simp [h1, h2, h3] at hne
    · intro ident hid
      simp at hid
    · intro _
      apply List.map_congr_left
      intro a _
      by_cases h : a.nombre_usuario = u <;> simp [h]
    · intro _ hall
      have hmap : usuarios.map (fun q' : UsuarioRow =>
          if q'.nombre_usuario == u then
            { q' with intentos_fallidos := q'.intentos_fallidos + 1 }
          else q') = usuarios.map id :=
        List.map_congr_left (fun a ha => by simp [hall a ha])
      show usuarios.map _ = usuarios
      rw [hmap, List.map_id]

/-- Claim C2 witness: the bootstrap admin row, a wrong password, the
failed-attempt counter goes up by one. -/
theorem C2_validar_credenciales_witness :
    (validar_credenciales (fun s => s ++ "#") 0
        (crear_usuario_admin_inicial (fun s => s ++ "#") [])
        "admin" "wrong").2 =
      (crear_usuario_admin_inicial (fun s => s ++ "#") []).map (fun q' =>
        if q'.nombre_usuario = "admin" then
          { q' with intentos_fallidos := q'.intentos_fallidos + 1 }
        else q') :=
  (C2_validar_credenciales_spec (fun s => s ++ "#") 0
    (crear_usuario_admin_inicial (fun s => s ++ "#") [])
    "admin" "wrong").2.2.1 (by decide)

/-! ## Claim C5 -/

/-- Claim C5 counterexample: `desasignar_empleado` does not validate the
existence of the referenced entities before mutating.  On a state whose
only content is an assignment row for an employee and a project that do
not exist, it succeeds and deletes the row, where the claim demands a
failed validation with no mutation. -/
theorem C5_desasignar_no_existence_check_cex :
    desasignar_empleado "11111111-1" 1 ⟨[], [], [("11111111-1", 1)]⟩ =
      (true, ⟨[], [], []⟩) ∧
    (⟨[], [], [("11111111-1", 1)]⟩ : BD).empleados = [] ∧
    (⟨[], [], [("11111111-1", 1)]⟩ : BD).proyectos = [] := by
  refine ⟨?_, rfl, rfl⟩
  decide

/-- Claim C5 (amended): `asignar_empleado` validates the existence of both
referenced entities before mutating and fails, state unchanged, when the
pair is already assigned (so the first assignment survives); on success it
appends the pair.  `desasignar_empleado` performs no entity-existence
validation: it fails with a not-found outcome and unchanged state exactly
when the pair is not currently assigned, and otherwise succeeds and
removes exactly the rows equal to that pair. -/
theorem C5_asignar_desasignar_spec (rut : String) (idp : Nat) (bd : BD) :
    ((∀ e ∈ bd.empleados, e.rut ≠ rut) →
      asignar_empleado rut idp bd = (false, bd)) ∧
    ((∀ p ∈ bd.proyectos, p.id_proyecto ≠ idp) →
      asignar_empleado rut idp bd = (false, bd)) ∧
    ((rut, idp) ∈ bd.asignaciones →
      asignar_empleado rut idp bd = (false, bd)) ∧
    ((∃ e ∈ bd.empleados, e.rut = rut) →
      (∃ p ∈ bd.proyectos, p.id_proyecto = idp) →
      (rut, idp) ∉ bd.asignaciones →
      asignar_empleado rut idp bd =
        (true,
         { bd with asignaciones := bd.asignaciones ++ [(rut, idp)] })) ∧
    ((rut, idp) ∉ bd.asignaciones →
      desasignar_empleado rut idp bd = (false, bd)) ∧
    ((rut, idp) ∈ bd.asignaciones →
      desasignar_empleado rut idp bd =
        (true,
         { bd with asignaciones := bd.asignaciones.filter (fun a => !(a.1 == rut && a.2 == idp)) })) := by
  refine ⟨?_, ?_, ?_, ?_, ?_, ?_⟩
  · intro h
    unfold asignar_empleado
    rw [if_pos]
    show (_ : Option EmpleadoRow).isNone = true
    rw [Option.isNone_iff_eq_none, List.find?_eq_none]
    intro e he
    simp [h e he]
  · intro h
    unfold asignar_empleado
    by_cases h1 : (bd.empleados.find? (fun e => e.rut == rut)).isNone
    · rw [if_pos h1]
    · rw [if_neg h1, if_pos]
      show (_ : Option ProyectoRow).isNone = true
      rw [Option.isNone_iff_eq_none, List.find?_eq_none]
      intro p hp
      simp [h p hp]
  · intro h
    unfold asignar_empleado
    split_ifs <;> rfl
  · intro he hp hmem
    obtain ⟨e, hee, her⟩ := he
    obtain ⟨q, hqq, hqr⟩ := hp
    have hfe : (bd.empleados.find? (fun x => x.rut == rut)).isSome :=
      List.find?_isSome.mpr ⟨e, hee, by simp [her]⟩
    have hfp : (bd.proyectos.find? (fun x =>
        x.id_proyecto == idp)).isSome :=
      List.find?_isSome.mpr ⟨q, hqq, by simp [hqr]⟩
    obtain ⟨a, ha⟩ := Option.isSome_iff_exists.mp hfe
    obtain ⟨b, hb⟩ := Option.isSome_iff_exists.mp hfp
    unfold asignar_empleado
    rw [ha, hb]
    simp [hmem]
  · intro hmem
    unfold desasignar_empleado
    rw [if_pos]
    congr 1
    exact List.filter_eq_self.mpr (fun a ha =>
      pairPred_true_iff.mpr (fun hc => hmem (hc ▸ ha)))
  · intro hmem
    unfold desasignar_empleado
    rw [if_neg]
    intro hlen
    have hp := List.filter_length_eq_length.mp hlen _ hmem
    simp at hp

/-- Claim C5 witness: with both entities present and the pair not yet
assigned, assignment succeeds and appends the pair. -/
theorem C5_asignar_desasignar_spec_witness :
    asignar_empleado "11111111-1" 1
      ⟨[⟨"11111111-1", "Bob", "Lee", "Engineer", 1000000, none⟩],
       [⟨1, "Launch", "desc", 0, "Activo"⟩], []⟩ =
      (true,
       ⟨[⟨"11111111-1", "Bob", "Lee", "Engineer", 1000000, none⟩],
        [⟨1, "Launch", "desc", 0, "Activo"⟩], [("11111111-1", 1)]⟩) :=
  (C5_asignar_desasignar_spec "11111111-1" 1
    ⟨[⟨"11111111-1", "Bob", "Lee", "Engineer", 1000000, none⟩],
     [⟨1, "Launch", "desc", 0, "Activo"⟩], []⟩).2.2.2.1
    (by decide) (by decide) (by decide)

/-! ## Claim C6 -/

/-- Claim C6: project deletion removes the dependent assignment rows and
the project row within one logical transaction: it succeeds exactly when
the project exists; on success the resulting state is the original one
with every assignment row of that project and the project row removed (the
employee table untouched); on failure — zero project rows affected —
nothing is committed and the whole state, assignment rows included, is
unchanged. -/
theorem C6_eliminar_proyecto_cascade (idp : Nat) (bd : BD) :
    ((Proyecto.eliminar idp bd).1 = true ↔
      ∃ p ∈ bd.proyectos, p.id_proyecto = idp) ∧
    ((Proyecto.eliminar idp bd).1 = true →
      (Proyecto.eliminar idp bd).2 =
        ⟨bd.empleados,
         bd.proyectos.filter (fun p => !(p.id_proyecto == idp)),
         bd.asignaciones.filter (fun a => !(a.2 == idp))⟩ ∧
      (∀ a ∈ (Proyecto.eliminar idp bd).2.asignaciones, a.2 ≠ idp) ∧
      (∀ p ∈ (Proyecto.eliminar idp bd).2.proyectos,
        p.id_proyecto ≠ idp)) ∧
    ((Proyecto.eliminar idp bd).1 = false →
      (Proyecto.eliminar idp bd).2 = bd) := by
  unfold Proyecto.eliminar
  split_ifs with h
  · refine ⟨?_, ?_, fun _ => rfl⟩
    · simp only [Bool.false_eq_true, false_iff]
      rintro ⟨p, hp, hid⟩
      have hq := List.filter_length_eq_length.mp h _ hp
      simp [hid] at hq
    · intro hc
      simp at hc
  · refine ⟨?_, ?_, ?_⟩
    · simp only [true_iff]
      by_contra hno
      push_neg at hno
      exact h (congrArg List.length (List.filter_eq_self.mpr
        (fun p hp => by simp [hno p hp])))
    · intro _
      refine ⟨rfl, ?_, ?_⟩
      · intro a ha
        have := (List.mem_filter.mp ha).2
        simpa using this
      · intro p hp
        have := (List.mem_filter.mp hp).2
        simpa using this
    · intro hc
      simp at hc

/-- Claim C6 witness: deleting an existing project also removes its
assignment row, atomically. -/
theorem C6_eliminar_proyecto_cascade_witness :
    (Proyecto.eliminar 1
      ⟨[], [⟨1, "Launch", "desc", 0, "Activo"⟩],
       [("11111111-1", 1)]⟩).2 = ⟨[], [], []⟩ :=
  (((C6_eliminar_proyecto_cascade 1
    ⟨[], [⟨1, "Launch", "desc", 0, "Activo"⟩],
     [("11111111-1", 1)]⟩).2.1 (by decide)).1).trans (by decide)

/-! ## Claim C7 -/

/-- Claim C7 counterexample: `Proyecto.listar_todos` takes no limit and
performs an unbounded scan — on a projects table with 101 rows it returns
more than the claimed default cap of 100 rows. -/
theorem C7_listar_todos_unbounded_cex :
    ¬ (Proyecto.listar_todos tabla101).length ≤ 100 := by
  intro hle
  have h1 : (Proyecto.listar_todos tabla101).length = tabla101.length :=
    (List.perm_insertionSort fechaDescProyecto tabla101).length_eq
  have h2 : tabla101.length = 101 := by simp [tabla101]
  omega

/-- Claim C7 (amended): Employee and Department `listar_todos` are bounded
by the supplied limit (default 100 in the source); Project and TimeRecord
`listar_todos` take no limit and return every row of the table — a
permutation of it — ordered by date descending. -/
theorem C7_listar_todos_spec :
    (∀ (limit : Nat) (tabla : List EmpleadoRow),
      (Empleado.listar_todos limit tabla).length ≤ limit) ∧
    (∀ (limit : Nat) (tabla : List DepartamentoRow),
      (Departamento.listar_todos limit tabla).length ≤ limit) ∧
    (∀ tabla : List ProyectoRow,
      (Proyecto.listar_todos tabla).Perm tabla ∧
      List.Sorted fechaDescProyecto (Proyecto.listar_todos tabla)) ∧
    (∀ tabla : List RegistroRow,
      (RegistroTiempo.listar_todos tabla).Perm tabla ∧
      List.Sorted fechaDescRegistro (RegistroTiempo.listar_todos tabla)) := by
  refine ⟨fun limit tabla => ?_, fun limit tabla => ?_,
    fun tabla => ⟨?_, ?_⟩, fun tabla => ⟨?_, ?_⟩⟩
  · exact List.length_take_le limit tabla
  · exact List.length_take_le limit tabla
  · exact List.perm_insertionSort fechaDescProyecto tabla
  · exact List.sorted_insertionSort fechaDescProyecto tabla
  · exact List.perm_insertionSort fechaDescRegistro tabla
  · exact List.sorted_insertionSort fechaDescRegistro tabla

end SistemaEmpleados
